import Mathlib

/-!
Shallow embedding of the fit engine of `src/render.js` (ViewSarn).

Modelling conventions:
* JS numbers are modelled as `ℚ`; a JS number that may be `NaN` is modelled
  as `Option ℚ` with `none` standing for `NaN`.  (`Infinity` is not
  representable in `ℚ`; inputs producing it are treated as unparsable.  No
  claim exercises such an input.)
* JS strings are UTF-16 code-unit sequences; for the margin parser, which
  slices strings, we work on `List Char`.  For option fields that are only
  compared for equality or upper-cased, we use `String`.
* `null`/`undefined`/falsiness are modelled explicitly where the source
  tests them (`opts.margin || '10mm'`, `if (opts.scale)`, `if (cl)`).
* `async`/`try`/`finally` control flow of `renderHtmlToBuffer` is modelled
  with `Except`, with the fallible backend calls (content load, measure,
  emit, page close, context close) supplied as an oracle record `Session`;
  JS semantics of `finally` are: the finalizer always runs, and an
  exception thrown inside it replaces the body's result (success or error).
-/

namespace ViewSarn

/-- Numeric value of a list of decimal digit characters (most significant first). -/
def digitsVal (ds : List Char) : ℕ :=
  ds.foldl (fun a c => a * 10 + (c.toNat - 48)) 0

/-- Syntactic part of JS float parsing on a code-unit sequence: skip
leading whitespace, optional sign, integer digits, optional `.` and
fraction digits, and an exponent part that is consumed only when
`e`/`E` is followed by (optionally signed) digits.  Returns
`(negative, integer digits, fraction digits, exponent, unconsumed rest)`. -/
def splitFloat (cs : List Char) : Bool × List Char × List Char × ℤ × List Char :=
  let cs := cs.dropWhile Char.isWhitespace
  let neg : Bool := match cs with | '-' :: _ => true | _ => false
  let cs := match cs with | '-' :: t => t | '+' :: t => t | _ => cs
  let intDs := cs.takeWhile Char.isDigit
  let cs := cs.dropWhile Char.isDigit
  let fracDs := match cs with | '.' :: t => t.takeWhile Char.isDigit | _ => []
  let cs := match cs with | '.' :: t => t.dropWhile Char.isDigit | _ => cs
  match cs with
  | c :: t =>
    if c = 'e' ∨ c = 'E' then
      let esgn : Bool := match t with | '-' :: _ => true | _ => false
      let u := match t with | '-' :: u => u | '+' :: u => u | _ => t
      let eds := u.takeWhile Char.isDigit
      if eds = [] then (neg, intDs, fracDs, 0, c :: t)
      else (neg, intDs, fracDs,
            if esgn then -(digitsVal eds : ℤ) else (digitsVal eds : ℤ),
            u.dropWhile Char.isDigit)
    else (neg, intDs, fracDs, 0, c :: t)
  | [] => (neg, intDs, fracDs, 0, [])

/-- Numeric value of a parsed float: `± (int + frac/10^|frac|) × 10^exp`. -/
def floatVal (neg : Bool) (intDs fracDs : List Char) (exp : ℤ) : ℚ :=
  (if neg then -1 else 1) *
    ((digitsVal intDs : ℚ) + (digitsVal fracDs : ℚ) / 10 ^ fracDs.length) * (10 : ℚ) ^ exp

/-- Model of JS `parseFloat` on a code-unit sequence: the longest valid
numeric prefix is taken and trailing garbage is ignored.  `none` stands
for `NaN` (no digits at all).  (`Infinity` and hex literals are not
modelled: `ℚ` has no infinities.) -/
def parseFloatL (cs : List Char) : Option ℚ :=
  match splitFloat cs with
  | (neg, intDs, fracDs, exp, _) =>
    if intDs = [] ∧ fracDs = [] then none
    else some (floatVal neg intDs fracDs exp)

/-- A margin option value: JS accepts a string or a number here. -/
inductive Margin where
  | str (s : String)
  | num (q : ℚ)
  deriving DecidableEq, Repr

/-- JS `s.endsWith(ab)` for a two-code-unit suffix `ab`. -/
def endsWith2 (cs : List Char) (a b : Char) : Bool :=
  match cs.reverse with
  | y :: x :: _ => x == a && y == b
  | _ => false

/-- JS `s.slice(0, -2)`: drop the last two code units. -/
def dropLast2 (cs : List Char) : List Char :=
  cs.dropLast.dropLast

/-- Core of `parseMarginToMm` on the code units of a string argument
(the string case of `render.js` lines 30–35). -/
def parseMarginChars (cs : List Char) : Option ℚ :=
  if cs = [] then some 0                                     -- `if (!m) return 0` ("" is falsy)
  else if endsWith2 cs 'm' 'm' then parseFloatL (dropLast2 cs)
  else if endsWith2 cs 'c' 'm' then (parseFloatL (dropLast2 cs)).map (· * 10)
  else if endsWith2 cs 'i' 'n' then (parseFloatL (dropLast2 cs)).map (· * (254 / 10))
  else parseFloatL cs

/-- `render.js` lines 29–36, `parseMarginToMm(m)`.  Result `none` is `NaN`. -/
def parseMarginToMm (m : Margin) : Option ℚ :=
  match m with
  | .num q => if q = 0 then some 0 else some q               -- `!0` is truthy; `typeof m === 'number'`
  | .str s => parseMarginChars s.data

/-- JS `x || d` on an option-string, where `none` is `undefined` and `""` is falsy. -/
def jsOrStr (x : Option String) (d : String) : String :=
  match x with
  | none => d
  | some s => if s = "" then d else s

/-- JS `x || d` on an optional margin value (`undefined`, `""` and `0` are falsy). -/
def jsOrMargin (x : Option Margin) (d : Margin) : Margin :=
  match x with
  | none => d
  | some (.str s) => if s = "" then d else .str s
  | some (.num q) => if q = 0 then d else .num q

/-- JS `x || 0` on a possibly-`NaN` number (`NaN` and `0` are falsy). -/
def jsNumOrZero (x : Option ℚ) : ℚ :=
  match x with
  | none => 0
  | some q => q

/-- A JS value as it may arrive in the `scale` option slot. -/
inductive JVal where
  | null
  | num (q : ℚ)
  | nan
  | str (s : String)
  deriving DecidableEq, Repr

/-- JS truthiness of a `JVal` (`null`, `0`, `NaN`, `""` are falsy). -/
def JVal.truthy : JVal → Bool
  | .null => false
  | .num q => q ≠ 0
  | .nan => false
  | .str s => s ≠ ""

/-- Strip leading and trailing JS whitespace from a code-unit sequence. -/
def trimWs (cs : List Char) : List Char :=
  ((cs.dropWhile Char.isWhitespace).reverse.dropWhile Char.isWhitespace).reverse

/-- JS `Number(v)` conversion of a whole string: trim whitespace, empty
becomes `0`, otherwise the entire trimmed string must be a numeral
(`none` = `NaN`; hex/`Infinity` literals are not modelled). -/
def jsStringToNumber (s : String) : Option ℚ :=
  let cs := trimWs s.data
  if cs = [] then some 0
  else
    match splitFloat cs with
    | (neg, intDs, fracDs, exp, rest) =>
      if intDs = [] ∧ fracDs = [] then none
      else if rest ≠ [] then none              -- trailing garbage makes Number() yield NaN
      else some (floatVal neg intDs fracDs exp)

/-- JS `Number(v)` on a `JVal` (`none` = `NaN`). -/
def JVal.toNumber : JVal → Option ℚ
  | .null => some 0
  | .num q => some q
  | .nan => none
  | .str s => jsStringToNumber s

/-- `render.js` lines 38–44, `clampScale(s)`: `null` for `NaN` input,
otherwise the value clamped into `[0.1, 2]`.  (The explicit
`null`/`undefined` branch of the source is subsumed: the only call site
passes `Number(opts.scale)`, a number, possibly `NaN`.) -/
def clampScale (s : Option ℚ) : Option ℚ :=
  match s with
  | none => none
  | some q => if q < 1 / 10 then some (1 / 10) else if q > 2 then some 2 else some q

/-- The options record consumed by `renderHtmlToBuffer` (`opts`).  `none`
in an `Option` field is an absent/`undefined` property. -/
structure RenderOpts where
  png : Bool := false
  format : Option String := none
  orientation : Option String := none
  margin : Option Margin := none
  single : Bool := false
  scale : Option JVal := none
  dpi : Option ℚ := none
  deriving DecidableEq, Repr

/-- `render.js` line 72: fixed layout conversion constant `96 / 25.4`. -/
def pxPerMm : ℚ := 96 / (254 / 10)

/-- `render.js` line 49: effective DPI for image output,
`opts.dpi && Number(opts.dpi) > 0 ? Number(opts.dpi) : 96`. -/
def effectiveDpi (o : RenderOpts) : ℚ :=
  match o.dpi with
  | some d => if d ≠ 0 ∧ d > 0 then d else 96
  | none => 96

/-- `render.js` line 52: `deviceScaleFactor = dpi / 96` (image mode only). -/
def deviceScaleFactor (o : RenderOpts) : ℚ :=
  effectiveDpi o / 96

/-- JS `String.prototype.toUpperCase`, code unit by code unit.  (Defined on
the underlying code units rather than through `String.map`, whose
position-based recursion does not reduce; `Char.toUpper` itself is the
same ASCII-style mapping JS applies to these paper names.) -/
def jsToUpper (s : String) : String :=
  ⟨s.data.map Char.toUpper⟩

/-- `render.js` line 73: `(opts.format || 'A4').toUpperCase()`. -/
def resolvedPaper (fmt : Option String) : String :=
  jsToUpper (jsOrStr fmt "A4")

/-- `render.js` lines 74–77: the paper-size table, in millimeters
(width, height); anything that is not `A5`/`LETTER`/`LEGAL` gets A4's
`(210, 297)`. -/
def paperDims (p : String) : ℚ × ℚ :=
  if p = "A5" then (148, 210)
  else if p = "LETTER" then (216, 279)
  else if p = "LEGAL" then (216, 356)
  else (210, 297)

/-- `render.js` lines 79–80: width/height swap exactly when
`opts.orientation === 'landscape'`. -/
def orientedPaperDims (fmt : Option String) (orientation : Option String) : ℚ × ℚ :=
  let d := paperDims (resolvedPaper fmt)
  if orientation = some "landscape" then (d.2, d.1) else d

/-- `render.js` line 82: `parseMarginToMm(opts.margin || '10mm') || 0`. -/
def marginMmOf (m : Option Margin) : ℚ :=
  jsNumOrZero (parseMarginToMm (jsOrMargin m (.str "10mm")))

/-- `render.js` line 83: `Math.max(1, (paperWidthMm - 2*marginMm) * pxPerMm)`. -/
def availableWidthPx (o : RenderOpts) : ℚ :=
  max 1 (((orientedPaperDims o.format o.orientation).1 - 2 * marginMmOf o.margin) * pxPerMm)

/-- `render.js` line 84: `Math.max(1, (paperHeightMm - 2*marginMm) * pxPerMm)`. -/
def availableHeightPx (o : RenderOpts) : ℚ :=
  max 1 (((orientedPaperDims o.format o.orientation).2 - 2 * marginMmOf o.margin) * pxPerMm)

/-- `render.js` line 86: the width-fit candidate `availableWidthPx / contentSize.width`.
(`ℚ` division by zero is `0` where JS would give `Infinity`; every claim
constrains the content box to positive size.) -/
def widthFitScale (o : RenderOpts) (w : ℚ) : ℚ :=
  availableWidthPx o / w

/-- `render.js` line 88: the height-fit candidate `availableHeightPx / contentSize.height`. -/
def heightFitScale (o : RenderOpts) (h : ℚ) : ℚ :=
  availableHeightPx o / h

/-- `render.js` lines 86–90: the computed scale before any manual
override — width fit, additionally height-bounded in single-page mode. -/
def computedScale (o : RenderOpts) (w h : ℚ) : ℚ :=
  if o.single then min (widthFitScale o w) (heightFitScale o h) else widthFitScale o w

/-- `render.js` lines 86–94: the scale after the manual-override step,
before the final safety clamp.  `if (opts.scale) { const cl =
clampScale(Number(opts.scale)); if (cl) scale = cl; }`. -/
def scaleBeforeClamp (o : RenderOpts) (w h : ℚ) : ℚ :=
  let s := computedScale o w h
  match o.scale with
  | none => s
  | some v =>
    if v.truthy then
      match clampScale v.toNumber with
      | none => s
      | some c => if c = 0 then s else c
    else s

/-- `render.js` lines 95–96: the final safety clamp into `[0.1, 2]`. -/
def finalScale (o : RenderOpts) (w h : ℚ) : ℚ :=
  let s := scaleBeforeClamp o w h
  if s < 1 / 10 then 1 / 10 else if s > 2 then 2 else s

/-- `render.js` line 4: `PAPER_SIZES`. -/
def PAPER_SIZES : List String := ["A4", "A5", "LETTER", "LEGAL"]

/-- `render.js` line 107: the format string handed to the backend's page
emission, `PAPER_SIZES.has(paper) ? paper : 'A4'`. -/
def pdfFormat (fmt : Option String) : String :=
  let p := resolvedPaper fmt
  if PAPER_SIZES.contains p then p else "A4"

/-- `render.js` line 108: `landscape: opts.orientation === 'landscape'`. -/
def pdfLandscape (orientation : Option String) : Bool :=
  orientation = some "landscape"

/-! ### Session lifecycle (`renderHtmlToBuffer`'s control flow) -/

/-- Failures a request can hit: the content-load timeout
(`page.setContent` rejecting), a rendering-backend failure
(`page.evaluate` / `page.pdf` / `page.screenshot` rejecting), and a
teardown failure (`page.close()` / `context.close()` rejecting). -/
inductive RErr where
  | loadTimeout
  | backendFailure
  | closeFailure
  deriving DecidableEq, Repr

/-- Oracle for the per-request backend interactions of
`renderHtmlToBuffer`: the outcome of each fallible `await`ed call. -/
structure Session where
  loadResult : Except RErr Unit              -- `page.setContent(html, …)`
  measureResult : Except RErr (ℚ × ℚ)        -- `page.evaluate(…)` content size
  emitResult : Except RErr ℕ                 -- `page.pdf` / `page.screenshot` (buffer handle)
  pageCloseResult : Except RErr Unit         -- `page.close()`
  contextCloseResult : Except RErr Unit      -- `context.close()`
  deriving Repr

/-- The metadata object returned on line 115 of `render.js`. -/
structure FitResult where
  buffer : ℕ
  scale : ℚ
  contentW : ℚ
  contentH : ℚ
  paper : String
  orientation : String
  deriving DecidableEq, Repr

/-- The `try` body of `renderHtmlToBuffer` (lines 61–115): load content,
measure the content box, compute the scale, emit, build the result. -/
def renderBody (s : Session) (o : RenderOpts) : Except RErr FitResult := do
  s.loadResult
  let (w, h) ← s.measureResult
  let buf ← s.emitResult
  pure { buffer := buf
         scale := finalScale o w h
         contentW := w
         contentH := h
         paper := resolvedPaper o.format
         orientation := jsOrStr o.orientation "portrait" }

/-- Outcome of a whole request: the surfaced result plus which teardown
calls were actually issued. -/
structure RunOutcome where
  result : Except RErr FitResult
  pageCloseCalled : Bool
  contextCloseCalled : Bool
  deriving Repr

/-- `renderHtmlToBuffer` (lines 46–120): the `try` body wrapped in
`finally { await page.close(); await context.close(); }`.  JS semantics:
the `finally` block always runs; an exception raised inside it replaces
the body's result (whether success or error), and a rejection of
`page.close()` aborts the block before `context.close()` is reached. -/
def renderHtmlToBuffer (s : Session) (o : RenderOpts) : RunOutcome :=
  let body := renderBody s o
  match s.pageCloseResult with
  | .error e => ⟨.error e, true, false⟩
  | .ok _ =>
    match s.contextCloseResult with
    | .error e => ⟨.error e, true, true⟩
    | .ok _ => ⟨body, true, true⟩

/-! ### Concrete inputs used in witnesses and counterexamples -/

/-- A session whose backend calls all succeed, measuring an 800×600 box. -/
def sessionAllOk : Session :=
  ⟨.ok (), .ok (800, 600), .ok 0, .ok (), .ok ()⟩

/-- The same session except that `page.close()` rejects. -/
def sessionPageCloseFails : Session :=
  ⟨.ok (), .ok (800, 600), .ok 0, .error .closeFailure, .ok ()⟩

/-- The option record of the spec's round-trip example: A4 portrait,
`"10mm"` margin, no manual scale, single-page off. -/
def optsC8 : RenderOpts :=
  { format := some "A4", orientation := some "portrait", margin := some (.str "10mm") }

/-! ### Helper lemmas -/

lemma endsWith2_append_pair (cs : List Char) (a b x y : Char) :
    endsWith2 (cs ++ [x, y]) a b = (x == a && y == b) := by
  unfold endsWith2
  simp

lemma dropLast2_append_pair (cs : List Char) (x y : Char) :
    dropLast2 (cs ++ [x, y]) = cs := by
  unfold dropLast2
  rw [show cs ++ [x, y] = (cs ++ [x]) ++ [y] by simp, List.dropLast_concat, List.dropLast_concat]

lemma digitsVal_nil : digitsVal [] = 0 := rfl

lemma parseFloatL_digits (cs r ds : List Char) (n : ℕ)
    (h : splitFloat cs = (false, ds, [], 0, r)) (hds : ds ≠ []) (hn : digitsVal ds = n) :
    parseFloatL cs = some n := by
  rw [parseFloatL, h]
  simp [hds, floatVal, hn, digitsVal_nil]

lemma parseFloatL_nan (cs r : List Char) (b : Bool) (e : ℤ)
    (h : splitFloat cs = (b, [], [], e, r)) : parseFloatL cs = none := by
  rw [parseFloatL, h]
  simp

lemma parseMarginChars_mm (cs : List Char) :
    parseMarginChars (cs ++ ['m', 'm']) = parseFloatL cs := by
  rw [parseMarginChars]
  simp [endsWith2_append_pair, dropLast2_append_pair]

lemma parseMarginChars_cm (cs : List Char) :
    parseMarginChars (cs ++ ['c', 'm']) = (parseFloatL cs).map (· * 10) := by
  rw [parseMarginChars]
  simp [endsWith2_append_pair, dropLast2_append_pair]

lemma parseMarginChars_in (cs : List Char) :
    parseMarginChars (cs ++ ['i', 'n']) = (parseFloatL cs).map (· * (254 / 10)) := by
  rw [parseMarginChars]
  simp [endsWith2_append_pair, dropLast2_append_pair]

lemma parseMarginChars_10mm : parseMarginChars ['1', '0', 'm', 'm'] = some 10 := by
  rw [show (['1', '0', 'm', 'm'] : List Char) = ['1', '0'] ++ ['m', 'm'] from rfl,
    parseMarginChars_mm,
    parseFloatL_digits ['1', '0'] [] ['1', '0'] 10 (by decide) (by decide) (by decide)]
  norm_num

lemma marginMmOf_default : marginMmOf none = 10 := by
  rw [marginMmOf]
  simp only [jsOrMargin, parseMarginToMm]
  rw [parseMarginChars_10mm]
  norm_num [jsNumOrZero]

lemma marginMmOf_10mm : marginMmOf (some (.str "10mm")) = 10 := by
  rw [marginMmOf]
  simp only [jsOrMargin]
  rw [if_neg (by decide : ¬("10mm" : String) = "")]
  simp only [parseMarginToMm]
  rw [parseMarginChars_10mm]
  norm_num [jsNumOrZero]

lemma paperDims_A4 : paperDims "A4" = (210, 297) := by
  rw [paperDims, if_neg (by decide : ¬("A4" : String) = "A5"),
    if_neg (by decide : ¬("A4" : String) = "LETTER"),
    if_neg (by decide : ¬("A4" : String) = "LEGAL")]

lemma availableWidthPx_A4_10 (o : RenderOpts) (hf : resolvedPaper o.format = "A4")
    (ho : o.orientation ≠ some "landscape") (hm : marginMmOf o.margin = 10) :
    availableWidthPx o = 91200 / 127 := by
  rw [availableWidthPx, orientedPaperDims, hf, hm, paperDims_A4]
  simp only [if_neg ho]
  rw [pxPerMm]
  rw [max_eq_right (by norm_num)]
  norm_num

lemma scaleBeforeClamp_plain (o : RenderOpts) (w h : ℚ)
    (hs : o.single = false) (hm : o.scale = none) :
    scaleBeforeClamp o w h = widthFitScale o w := by
  simp [scaleBeforeClamp, computedScale, hs, hm]

lemma finalScale_default_800_600 : finalScale ({} : RenderOpts) 800 600 = 114 / 127 := by
  have h1 : scaleBeforeClamp ({} : RenderOpts) 800 600 = 114 / 127 := by
    rw [scaleBeforeClamp_plain _ _ _ rfl rfl, widthFitScale,
      availableWidthPx_A4_10 _ (by decide) (by simp) marginMmOf_default]
    norm_num
  unfold finalScale
  rw [h1]
  norm_num

/-! ### Claims -/

/-- C1: for every content box with width and height in `[1, 100000]` and
every combination of paper, orientation, margin and manual-scale option,
the finalized scale of `renderHtmlToBuffer` lies in `[0.1, 2.0]`: the
final safety clamp (lines 95–96) applies to computed and manual values
alike. -/
theorem finalScale_always_clamped (o : RenderOpts) (w h : ℚ)
    (hw1 : 1 ≤ w) (hw2 : w ≤ 100000) (hh1 : 1 ≤ h) (hh2 : h ≤ 100000) :
    1 / 10 ≤ finalScale o w h ∧ finalScale o w h ≤ 2 := by
  unfold finalScale
  dsimp only
  split_ifs with h1 h2
  · norm_num
  · norm_num
  · exact ⟨not_lt.mp h1, not_lt.mp h2⟩

/-- Witness for C1 at a concrete input. -/
theorem finalScale_always_clamped_witness :
    (1 : ℚ) ≤ 800 ∧ (800 : ℚ) ≤ 100000 ∧ (1 : ℚ) ≤ 600 ∧ (600 : ℚ) ≤ 100000 ∧
    (1 / 10 ≤ finalScale ({} : RenderOpts) 800 600 ∧ finalScale ({} : RenderOpts) 800 600 ≤ 2) :=
  ⟨by norm_num, by norm_num, by norm_num, by norm_num,
    finalScale_always_clamped {} 800 600 (by norm_num) (by norm_num) (by norm_num) (by norm_num)⟩

/-- C2: in single-page mode with no manual scale, the scale chosen before
the final safety clamp is exactly the minimum of the width-fit and
height-fit candidates, so it exceeds neither. -/
theorem singlePage_scale_is_min (o : RenderOpts) (w h : ℚ)
    (hs : o.single = true) (hm : o.scale = none) (hw : 0 < w) (hh : 0 < h) :
    scaleBeforeClamp o w h = min (widthFitScale o w) (heightFitScale o h) ∧
    scaleBeforeClamp o w h ≤ widthFitScale o w ∧
    scaleBeforeClamp o w h ≤ heightFitScale o h := by
  have he : scaleBeforeClamp o w h = min (widthFitScale o w) (heightFitScale o h) := by
    simp [scaleBeforeClamp, computedScale, hs, hm]
  exact ⟨he, he ▸ min_le_left _ _, he ▸ min_le_right _ _⟩

/-- Witness for C2 at a concrete input. -/
theorem singlePage_scale_is_min_witness :
    ({ single := true } : RenderOpts).single = true ∧
    ({ single := true } : RenderOpts).scale = none ∧ (0 : ℚ) < 800 ∧ (0 : ℚ) < 600 ∧
    (scaleBeforeClamp { single := true } 800 600 =
        min (widthFitScale { single := true } 800) (heightFitScale { single := true } 600) ∧
      scaleBeforeClamp { single := true } 800 600 ≤ widthFitScale { single := true } 800 ∧
      scaleBeforeClamp { single := true } 800 600 ≤ heightFitScale { single := true } 600) :=
  ⟨rfl, rfl, by norm_num, by norm_num,
    singlePage_scale_is_min { single := true } 800 600 rfl rfl (by norm_num) (by norm_num)⟩

/-- C3: a valid manual scale overrides the computed scale for every
content box and paper/margin combination: `manualScale = 0.5` yields
`0.5`, and `manualScale = 5.0` yields the clamped `2.0`, never `5.0`. -/
theorem manualScale_overrides (o : RenderOpts) (w h : ℚ) :
    finalScale { o with scale := some (.num (1 / 2)) } w h = 1 / 2 ∧
    finalScale { o with scale := some (.num 5) } w h = 2 := by
  constructor
  · have h1 : scaleBeforeClamp { o with scale := some (.num (1 / 2)) } w h = 1 / 2 := by
      simp only [scaleBeforeClamp]
      norm_num [JVal.truthy, JVal.toNumber, clampScale]
    unfold finalScale
    rw [h1]
    norm_num
  · have h1 : scaleBeforeClamp { o with scale := some (.num 5) } w h = 2 := by
      simp only [scaleBeforeClamp]
      norm_num [JVal.truthy, JVal.toNumber, clampScale]
    unfold finalScale
    rw [h1]
    norm_num

/-- The success of a request body depends only on the backend call
outcomes, never on the options record. -/
lemma renderBody_isOk (s : Session) (o : RenderOpts) :
    (renderBody s o).isOk = (s.loadResult.isOk && s.measureResult.isOk && s.emitResult.isOk) := by
  rcases s with ⟨l, m, em, pc, cc⟩
  cases l <;> cases m <;> cases em <;> rfl

lemma jsStringToNumber_abc : jsStringToNumber "abc" = none := by
  rw [jsStringToNumber]
  simp only
  rw [show trimWs "abc".data = ['a', 'b', 'c'] by decide]
  rw [if_neg (by decide : ¬(['a', 'b', 'c'] : List Char) = [])]
  rw [show splitFloat ['a', 'b', 'c'] = (false, [], [], 0, ['a', 'b', 'c']) by decide]
  simp

/-- C4 counterexample: a manual scale of `5.0` (outside `[0.1, 2.0]`) does
NOT fall back to the computed scale — on an 800×600 box with default
paper and margin the computed scale is `114/127 ≈ 0.898`, but the result
with `manualScale = 5.0` is the clamped `2`, so the manual value does
determine the result. -/
theorem manualScale_out_of_range_not_fallback :
    finalScale { scale := some (.num 5) } 800 600 = 2 ∧
    finalScale ({} : RenderOpts) 800 600 = 114 / 127 ∧
    (2 : ℚ) ≠ 114 / 127 := by
  refine ⟨?_, finalScale_default_800_600, by norm_num⟩
  have h1 : scaleBeforeClamp { scale := some (.num 5) } 800 600 = 2 := by
    simp only [scaleBeforeClamp]
    norm_num [JVal.truthy, JVal.toNumber, clampScale]
  unfold finalScale
  rw [h1]
  norm_num

/-- C4 (amended): absent, `null`, falsy and non-numeric manual-scale
values fall back to the computed scale; numeric values outside
`[0.1, 2.0]` do not fall back but are clamped to the nearest bound; and
the request's success never depends on the manual-scale value. -/
theorem manualScale_fallback_or_clamp (o : RenderOpts) (w h : ℚ) :
    (o.scale = none → scaleBeforeClamp o w h = computedScale o w h) ∧
    (∀ v, o.scale = some v → v.truthy = false → scaleBeforeClamp o w h = computedScale o w h) ∧
    (∀ v, o.scale = some v → v.toNumber = none → scaleBeforeClamp o w h = computedScale o w h) ∧
    (∀ v q, o.scale = some v → v.truthy = true → v.toNumber = some q → 2 < q →
      finalScale o w h = 2) ∧
    (∀ v q, o.scale = some v → v.truthy = true → v.toNumber = some q → q < 1 / 10 →
      finalScale o w h = 1 / 10) ∧
    (∀ (s : Session) (v : Option JVal),
      (renderHtmlToBuffer s { o with scale := v }).result.isOk =
        (renderHtmlToBuffer s o).result.isOk) := by
  refine ⟨?_, ?_, ?_, ?_, ?_, ?_⟩
  · intro hm
    simp [scaleBeforeClamp, hm]
  · intro v hv ht
    simp [scaleBeforeClamp, hv, ht]
  · intro v hv hn
    simp [scaleBeforeClamp, hv, hn, clampScale]
  · intro v q hv ht hq h2q
    have hcl : clampScale v.toNumber = some 2 := by
      rw [hq, clampScale, if_neg (by linarith), if_pos (by linarith)]
    have hsb : scaleBeforeClamp o w h = 2 := by
      simp [scaleBeforeClamp, hv, ht, hcl]
    unfold finalScale
    rw [hsb]
    norm_num
  · intro v q hv ht hq hql
    have hcl : clampScale v.toNumber = some (1 / 10) := by
      rw [hq, clampScale, if_pos (by linarith)]
    have hsb : scaleBeforeClamp o w h = 1 / 10 := by
      simp [scaleBeforeClamp, hv, ht, hcl]
    unfold finalScale
    rw [hsb]
    norm_num
  · intro s v
    rcases s with ⟨l, m, em, pc, cc⟩
    cases pc <;> cases cc <;> simp [renderHtmlToBuffer, renderBody_isOk]

/-- Witness for the amended C4 at concrete inputs. -/
theorem manualScale_fallback_or_clamp_witness :
    scaleBeforeClamp { scale := some (.str "abc") } 800 600 =
      computedScale { scale := some (.str "abc") } 800 600 ∧
    scaleBeforeClamp { scale := some .null } 800 600 =
      computedScale { scale := some .null } 800 600 ∧
    finalScale { scale := some (.num 3) } 800 600 = 2 ∧
    finalScale { scale := some (.num (1 / 100)) } 800 600 = 1 / 10 := by
  refine ⟨?_, ?_, ?_, ?_⟩
  · exact (manualScale_fallback_or_clamp _ 800 600).2.2.1 _ rfl jsStringToNumber_abc
  · exact (manualScale_fallback_or_clamp _ 800 600).2.1 _ rfl rfl
  · exact (manualScale_fallback_or_clamp _ 800 600).2.2.2.1 _ 3 rfl (by decide) rfl (by norm_num)
  · exact (manualScale_fallback_or_clamp _ 800 600).2.2.2.2.1 _ (1 / 100) rfl
      (by norm_num [JVal.truthy]) rfl (by norm_num)

/-- C5 counterexample: with every backend call succeeding but
`page.close()` rejecting, the request body succeeded yet the surfaced
result is the teardown error — the teardown failure is not swallowed, it
overrides the primary success — and `context.close()` is never reached. -/
theorem teardown_failure_not_swallowed :
    (renderBody sessionPageCloseFails {}).isOk = true ∧
    (renderHtmlToBuffer sessionPageCloseFails {}).result = .error .closeFailure ∧
    (renderHtmlToBuffer sessionPageCloseFails {}).contextCloseCalled = false :=
  ⟨rfl, rfl, rfl⟩

/-- C5 (amended): `page.close()` is attempted on every exit path, and
`context.close()` whenever `page.close()` succeeds; when both succeed the
primary result (success or original error) is surfaced unchanged.  But a
teardown failure is not logged-and-swallowed: it replaces the primary
result, and a `page.close()` failure skips the context release. -/
theorem teardown_always_attempted (s : Session) (o : RenderOpts) :
    (renderHtmlToBuffer s o).pageCloseCalled = true ∧
    (s.pageCloseResult.isOk = true → (renderHtmlToBuffer s o).contextCloseCalled = true) ∧
    (s.pageCloseResult.isOk = true → s.contextCloseResult.isOk = true →
      (renderHtmlToBuffer s o).result = renderBody s o) ∧
    (∀ e, s.pageCloseResult = .error e →
      (renderHtmlToBuffer s o).result = .error e ∧
      (renderHtmlToBuffer s o).contextCloseCalled = false) ∧
    (∀ e, s.pageCloseResult = .ok () → s.contextCloseResult = .error e →
      (renderHtmlToBuffer s o).result = .error e) := by
  rcases s with ⟨l, m, em, pc, cc⟩
  cases pc <;> cases cc <;> simp [renderHtmlToBuffer, Except.isOk, Except.toBool]

/-- Witness for the amended C5 on an all-successful session. -/
theorem teardown_always_attempted_witness :
    sessionAllOk.pageCloseResult.isOk = true ∧
    sessionAllOk.contextCloseResult.isOk = true ∧
    (renderHtmlToBuffer sessionAllOk {}).pageCloseCalled = true ∧
    (renderHtmlToBuffer sessionAllOk {}).contextCloseCalled = true ∧
    (renderHtmlToBuffer sessionAllOk {}).result = renderBody sessionAllOk {} :=
  ⟨rfl, rfl, (teardown_always_attempted sessionAllOk {}).1,
    (teardown_always_attempted sessionAllOk {}).2.1 rfl,
    (teardown_always_attempted sessionAllOk {}).2.2.1 rfl rfl⟩

/-- C6: the margin conversion maps `"Nmm"` to `N`, `"Ncm"` to `10N`,
`"Nin"` to `25.4N`, a plain number to itself, a string without a
recognized suffix to its bare parsed float, and — through the `|| 0`
applied at the call site (line 82) — any totally unparsable input to `0`;
it is total and never rejects. -/
theorem parseMarginToMm_spec :
    (∀ cs : List Char, parseMarginChars (cs ++ ['m', 'm']) = parseFloatL cs) ∧
    (∀ cs : List Char, parseMarginChars (cs ++ ['c', 'm']) = (parseFloatL cs).map (· * 10)) ∧
    (∀ cs : List Char, parseMarginChars (cs ++ ['i', 'n']) = (parseFloatL cs).map (· * (254 / 10))) ∧
    (∀ q : ℚ, parseMarginToMm (.num q) = some q) ∧
    (∀ cs : List Char, cs ≠ [] → endsWith2 cs 'm' 'm' = false → endsWith2 cs 'c' 'm' = false →
      endsWith2 cs 'i' 'n' = false → parseMarginChars cs = parseFloatL cs) ∧
    (∀ s : String, parseMarginChars s.data = none → marginMmOf (some (.str s)) = 0) := by
  refine ⟨parseMarginChars_mm, parseMarginChars_cm, parseMarginChars_in, ?_, ?_, ?_⟩
  · intro q
    rw [parseMarginToMm]
    split_ifs with h
    · rw [h]
    · rfl
  · intro cs h0 h1 h2 h3
    simp [parseMarginChars, h0, h1, h2, h3]
  · intro s hnone
    have hs : ¬s = "" := by
      intro h
      rw [h] at hnone
      simp [parseMarginChars] at hnone
    rw [marginMmOf]
    simp only [jsOrMargin]
    rw [if_neg hs]
    simp only [parseMarginToMm]
    rw [hnone]
    rfl

/-- Witness for C6 at concrete inputs. -/
theorem parseMarginToMm_spec_witness :
    parseMarginToMm (.str "7mm") = some 7 ∧
    parseMarginToMm (.str "2cm") = some 20 ∧
    parseMarginToMm (.str "1in") = some (127 / 5) ∧
    parseMarginToMm (.num (5 / 2)) = some (5 / 2) ∧
    parseMarginToMm (.str "12") = some 12 ∧
    marginMmOf (some (.str "abc")) = 0 := by
  obtain ⟨hmm, hcm, hin, hnum, hbare, hbad⟩ := parseMarginToMm_spec
  refine ⟨?_, ?_, ?_, hnum (5 / 2), ?_, hbad "abc" ?_⟩
  · rw [show parseMarginToMm (.str "7mm") = parseMarginChars (['7'] ++ ['m', 'm']) from rfl,
      hmm, parseFloatL_digits ['7'] [] ['7'] 7 (by decide) (by decide) (by decide)]
    norm_num
  · rw [show parseMarginToMm (.str "2cm") = parseMarginChars (['2'] ++ ['c', 'm']) from rfl,
      hcm, parseFloatL_digits ['2'] [] ['2'] 2 (by decide) (by decide) (by decide)]
    norm_num
  · rw [show parseMarginToMm (.str "1in") = parseMarginChars (['1'] ++ ['i', 'n']) from rfl,
      hin, parseFloatL_digits ['1'] [] ['1'] 1 (by decide) (by decide) (by decide)]
    norm_num
  · rw [show parseMarginToMm (.str "12") = parseMarginChars ['1', '2'] from rfl,
      hbare ['1', '2'] (by decide) (by decide) (by decide) (by decide),
      parseFloatL_digits ['1', '2'] [] ['1', '2'] 12 (by decide) (by decide) (by decide)]
    norm_num
  · rw [show ("abc".data : List Char) = ['a', 'b', 'c'] from rfl,
      hbare ['a', 'b', 'c'] (by decide) (by decide) (by decide) (by decide),
      parseFloatL_nan ['a', 'b', 'c'] ['a', 'b', 'c'] false 0 (by decide)]



/-- C7: any paper name that does not resolve (case-insensitively) to one
of `A4`/`A5`/`LETTER`/`LEGAL` gets A4's `210×297` geometry, the backend
format string independently defaults to `"A4"`, and the two defaulting
paths agree (same dimensions) for every input. -/
theorem unknownPaper_defaults_A4 (s : String)
    (h4 : resolvedPaper (some s) ≠ "A4") (h5 : resolvedPaper (some s) ≠ "A5")
    (hl : resolvedPaper (some s) ≠ "LETTER") (hg : resolvedPaper (some s) ≠ "LEGAL") :
    paperDims (resolvedPaper (some s)) = (210, 297) ∧
    pdfFormat (some s) = "A4" ∧
    ∀ t : Option String, paperDims (pdfFormat t) = paperDims (resolvedPaper t) := by
  refine ⟨?_, ?_, ?_⟩
  · rw [paperDims, if_neg h5, if_neg hl, if_neg hg]
  · rw [pdfFormat]
    simp only [PAPER_SIZES, List.contains_cons, List.contains_nil]
    simp [h4, h5, hl, hg]
  · intro t
    by_cases hc : PAPER_SIZES.contains (resolvedPaper t) = true
    · rw [pdfFormat]
      simp only [hc, if_true]
    · rw [pdfFormat]
      simp only [hc, if_false, Bool.false_eq_true]
      simp only [PAPER_SIZES, List.contains_cons, List.contains_nil, Bool.or_eq_true,
        beq_iff_eq] at hc
      push_neg at hc
      rw [paperDims_A4, paperDims, if_neg, if_neg, if_neg]
      · tauto
      · tauto
      · tauto



/-- Witness for C7 at the spec's example `"B5"`. -/
theorem unknownPaper_defaults_A4_witness :
    resolvedPaper (some "B5") ≠ "A4" ∧ resolvedPaper (some "B5") ≠ "A5" ∧
    resolvedPaper (some "B5") ≠ "LETTER" ∧ resolvedPaper (some "B5") ≠ "LEGAL" ∧
    paperDims (resolvedPaper (some "B5")) = (210, 297) ∧
    pdfFormat (some "B5") = "A4" ∧
    paperDims (pdfFormat (some "b5")) = paperDims (resolvedPaper (some "b5")) := by
  have h := unknownPaper_defaults_A4 "B5" (by decide) (by decide) (by decide) (by decide)
  exact ⟨by decide, by decide, by decide, by decide, h.1, h.2.1, h.2.2 (some "b5")⟩

/-- C8: the spec's round-trip example: an 800×600 box on A4 portrait with
`"10mm"` margin and no manual scale gives
`availableWidthPx = max(1, (210−2·10)·96/25.4) = 91200/127 ≈ 718.11` px
and `scale = availableWidthPx/800 = 114/127 ≈ 0.8976`, within the stated
tolerances. -/
theorem roundTrip_800x600 :
    availableWidthPx optsC8 = max 1 ((210 - 2 * 10) * (96 / (254 / 10))) ∧
    availableWidthPx optsC8 = 91200 / 127 ∧
    finalScale optsC8 800 600 = availableWidthPx optsC8 / 800 ∧
    finalScale optsC8 800 600 = 114 / 127 ∧
    |availableWidthPx optsC8 - 71811 / 100| < 1 / 100 ∧
    |finalScale optsC8 800 600 - 8976 / 10000| < 1 / 10000 := by
  have hf : resolvedPaper optsC8.format = "A4" := by decide
  have ho : optsC8.orientation ≠ some "landscape" := by decide
  have hm : marginMmOf optsC8.margin = 10 := marginMmOf_10mm
  have hw : availableWidthPx optsC8 = 91200 / 127 := availableWidthPx_A4_10 _ hf ho hm
  have hsb : scaleBeforeClamp optsC8 800 600 = 114 / 127 := by
    rw [scaleBeforeClamp_plain _ _ _ rfl rfl, widthFitScale, hw]
    norm_num
  have hfs : finalScale optsC8 800 600 = 114 / 127 := by
    unfold finalScale
    rw [hsb]
    norm_num
  refine ⟨?_, hw, ?_, hfs, ?_, ?_⟩
  · rw [hw, max_eq_right (by norm_num)]
    norm_num
  · rw [hfs, hw]
    norm_num
  · rw [hw, abs_lt]
    constructor <;> norm_num
  · rw [hfs, abs_lt]
    constructor <;> norm_num

/-- C9: the layout-fitting computation is independent of the `dpi`
option: two option records differing only in `dpi` resolve the same paper
geometry, available print area and scale; the layout constant is fixed at
`96/25.4` px/mm. -/
theorem dpi_layout_noninterference (o : RenderOpts) (d₁ d₂ : Option ℚ) (w h : ℚ) :
    orientedPaperDims ({ o with dpi := d₁ } : RenderOpts).format
        ({ o with dpi := d₁ } : RenderOpts).orientation =
      orientedPaperDims ({ o with dpi := d₂ } : RenderOpts).format
        ({ o with dpi := d₂ } : RenderOpts).orientation ∧
    availableWidthPx { o with dpi := d₁ } = availableWidthPx { o with dpi := d₂ } ∧
    availableHeightPx { o with dpi := d₁ } = availableHeightPx { o with dpi := d₂ } ∧
    computedScale { o with dpi := d₁ } w h = computedScale { o with dpi := d₂ } w h ∧
    finalScale { o with dpi := d₁ } w h = finalScale { o with dpi := d₂ } w h ∧
    pxPerMm = 96 / (254 / 10) :=
  ⟨rfl, rfl, rfl, rfl, rfl, rfl⟩

/-- C10: the geometry swap and the backend landscape flag are applied
exactly when the orientation option is the exact lowercase string
`"landscape"`; `"Landscape"` and `"LANDSCAPE"` are treated as portrait —
unlike paper-name matching, which is case-insensitive. -/
theorem orientation_exact_landscape (p : Option String) (orient : Option String)
    (hno : orient ≠ some "landscape") :
    orientedPaperDims p orient = paperDims (resolvedPaper p) ∧
    pdfLandscape orient = false ∧
    orientedPaperDims p (some "landscape") =
      ((paperDims (resolvedPaper p)).2, (paperDims (resolvedPaper p)).1) ∧
    pdfLandscape (some "landscape") = true ∧
    orientedPaperDims p (some "Landscape") = paperDims (resolvedPaper p) ∧
    pdfLandscape (some "Landscape") = false ∧
    pdfLandscape (some "LANDSCAPE") = false ∧
    resolvedPaper (some "a4") = resolvedPaper (some "A4") := by
  refine ⟨?_, ?_, ?_, ?_, ?_, ?_, ?_, ?_⟩
  · simp [orientedPaperDims, hno]
  · simp [pdfLandscape, hno]
  · simp [orientedPaperDims]
  · simp [pdfLandscape]
  · simp [orientedPaperDims]
  · decide
  · decide
  · decide

/-- Witness for C10 at a non-lowercase orientation. -/
theorem orientation_exact_landscape_witness :
    (some "Landscape" : Option String) ≠ some "landscape" ∧
    orientedPaperDims (some "a4") (some "Landscape") = paperDims (resolvedPaper (some "a4")) ∧
    pdfLandscape (some "Landscape") = false :=
  ⟨by decide, (orientation_exact_landscape (some "a4") (some "Landscape") (by decide)).1,
    (orientation_exact_landscape (some "a4") (some "Landscape") (by decide)).2.1⟩

end ViewSarn
